import Mathlib

/-!
Verification of the `Project` controller aggregate
(`gns3server/controller/project.py`).

The Python class is embedded shallowly:
* pure helpers become Lean functions;
* stateful operations become explicit state-passing functions returning
  `(Except PyErr α) × Project × FS × List Effect` — the result (or raised
  exception), the mutated in-memory aggregate, the on-disk state, and the
  trace of collaborator calls / notifications.  As in Python, an exception
  does not roll back mutations already performed, so the post-state is
  returned on the error path too;
* fallible collaborator calls (compute RPC, node/link lifecycle, topology
  parsing, OS-level file operations) are resolved through an explicit
  environment `Env` of outcome functions, mirroring the interfaces listed
  in the specification.
-/

/-- Structured failures raised by the aggregate, mirroring the aiohttp
exception classes and `ComputeError` used in `project.py`. -/
inductive PyErr where
  | HTTPForbidden (text : String)
  | HTTPConflict (text : String)
  | HTTPNotFound (text : String)
  | HTTPBadRequest (text : String)
  | HTTPInternalServerError (text : String)
  | ComputeError (text : String)
  | OtherError (text : String)
deriving DecidableEq, Repr

/-- Failures of Python `str.format`: `KeyError` (unknown keyword field),
`IndexError` (positional field out of range) and `ValueError`
(malformed template). -/
inductive FmtErr where
  | key_err (key : String)
  | index_err
  | value_err
deriving DecidableEq, Repr

/-- Decidable equality of collaborator results. -/
instance {e a : Type} [DecidableEq e] [DecidableEq a] : DecidableEq (Except e a) := fun x y =>
  match x, y with
  | Except.ok u, Except.ok v =>
    if h : u = v then Decidable.isTrue (by rw [h])
    else Decidable.isFalse (by intro hc; cases hc; exact h rfl)
  | Except.error u, Except.error v =>
    if h : u = v then Decidable.isTrue (by rw [h])
    else Decidable.isFalse (by intro hc; cases hc; exact h rfl)
  | Except.ok _, Except.error _ => Decidable.isFalse (by intro hc; cases hc)
  | Except.error _, Except.ok _ => Decidable.isFalse (by intro hc; cases hc)

/-- Left brace character (Python template delimiter). -/
def lbrace : Char := '\x7b'

/-- Right brace character (Python template delimiter). -/
def rbrace : Char := '\x7d'

/-- Resolution of one replacement field of `base_name.format(number, id=number,
name="Node")` (`project.py` line 379): field `0` and field `id` map to the
number, field `name` maps to `"Node"`, an empty field is the automatic
positional field (the number), any other all-digit field is an out-of-range
positional (`IndexError`), and any other keyword field is a `KeyError`.
(The `str.format` corner of mixing automatic and manual numbering is not
modelled.) -/
def fmt_key (n : Nat) (key : List Char) : Except FmtErr (List Char) :=
  if key = [ '0' ] then Except.ok (toString n).toList
  else if key = [ 'i', 'd' ] then Except.ok (toString n).toList
  else if key = [ 'n', 'a', 'm', 'e' ] then Except.ok ("Node").toList
  else if key = [] then Except.ok (toString n).toList
  else if key.all Char.isDigit then Except.error FmtErr.index_err
  else Except.error (FmtErr.key_err (String.mk key))

/-- Character-level model of Python `str.format` with the argument list used
at `project.py` line 379.  The first argument is `none` outside a replacement
field and `some acc` (reversed accumulated field name) inside one.  `\x7b\x7b`
and `\x7d\x7d` are brace escapes; an unterminated or stray brace is a
`ValueError`. -/
def py_format_go (n : Nat) : Option (List Char) → List Char → Except FmtErr (List Char)
  | none, [] => Except.ok []
  | none, [c] =>
    if c = lbrace then Except.error FmtErr.value_err
    else if c = rbrace then Except.error FmtErr.value_err
    else (fun t => c :: t) <$> py_format_go n none []
  | none, c :: d :: rest2 =>
    if c = lbrace then
      if d = lbrace then (fun t => c :: t) <$> py_format_go n none rest2
      else py_format_go n (some []) (d :: rest2)
    else if c = rbrace then
      if d = rbrace then (fun t => c :: t) <$> py_format_go n none rest2
      else Except.error FmtErr.value_err
    else (fun t => c :: t) <$> py_format_go n none (d :: rest2)
  | some _, [] => Except.error FmtErr.value_err
  | some acc, c :: rest =>
    if c = rbrace then
      match fmt_key n acc.reverse with
      | Except.ok v => (fun t => v ++ t) <$> py_format_go n none rest
      | Except.error e => Except.error e
    else if c = lbrace then Except.error FmtErr.value_err
    else py_format_go n (some (c :: acc)) rest

/-- `s.format(n, id=n, name="Node")` as called by the name allocator. -/
def py_format (n : Nat) (s : String) : Except FmtErr String :=
  match py_format_go n none s.toList with
  | Except.ok l => Except.ok (String.mk l)
  | Except.error e => Except.error e

/-- Substring test (Python `in` on strings), on character lists. -/
def has_sub (pat : List Char) : List Char → Bool
  | [] => pat.isEmpty
  | c :: rest => pat.isPrefixOf (c :: rest) || has_sub pat rest

/-- Python `re.sub(r"[ ]", "", s)`: drop every space character
(`project.py` line 371). -/
def strip_spaces (s : String) : String :=
  String.mk (s.toList.filter (fun c => c ≠ ' '))

/-- Python `re.sub(r"[0-9]+$", "\x7b0\x7d", s)`: replace a non-empty trailing
digit run by the positional template marker (`project.py` line 373). -/
def template_name (s : String) : String :=
  let rev := s.toList.reverse
  if rev.takeWhile Char.isDigit = [] then s
  else String.mk ((rev.dropWhile Char.isDigit).reverse) ++ "\x7b0\x7d"

/-- Template detection of `project.py` line 375: the name contains `\x7b0\x7d`
or `\x7bid\x7d`. -/
def is_template (s : String) : Bool :=
  has_sub ("\x7b0\x7d".toList) s.toList || has_sub ("\x7bid\x7d".toList) s.toList

/-- Conflict raised when both bounded search loops are exhausted
(`project.py` line 397). -/
def node_limit_err : PyErr :=
  PyErr.HTTPConflict ("A node name could not be allocated (node limit reached?)")

/-- Template search loop of `project.py` lines 377-386: substitute increasing
integers into the template until an unallocated name is found.  `number` is
the current integer, `fuel` the remaining iterations of `range(1, 1000000)`.
A `KeyError` from the substitution names the bad replacement field; a
`ValueError`/`IndexError` names the whole template. -/
def alloc_template_loop (names : List String) (base : String) :
    Nat → Nat → (Except PyErr (Option String)) × List String
  | _, 0 => (Except.error node_limit_err, names)
  | number, fuel + 1 =>
    match py_format number base with
    | Except.error (FmtErr.key_err k) =>
      (Except.error (PyErr.HTTPConflict
        ("\x7b" ++ k ++ "\x7d is not a valid replacement string in the node name")), names)
    | Except.error _ =>
      (Except.error (PyErr.HTTPConflict
        (base ++ " is not a valid replacement string in the node name")), names)
    | Except.ok name =>
      if names.contains name then alloc_template_loop names base (number + 1) fuel
      else (Except.ok (some name), name :: names)

/-- Suffix search loop of `project.py` lines 392-396: append increasing
integers to the base name until an unallocated name is found. -/
def alloc_suffix_loop (names : List String) (base : String) :
    Nat → Nat → (Except PyErr (Option String)) × List String
  | _, 0 => (Except.error node_limit_err, names)
  | number, fuel + 1 =>
    if names.contains (base ++ toString number) then
      alloc_suffix_loop names base (number + 1) fuel
    else (Except.ok (some (base ++ toString number)), (base ++ toString number) :: names)

/-- Name reaching the branch dispatch of `update_allocated_node_name`: the
space-stripped base name, with a trailing digit run templated when the
stripped name is already allocated (`project.py` lines 371-373). -/
def effective_base (names : List String) (bn : String) : String :=
  let b1 := strip_spaces bn
  if names.contains b1 then template_name b1 else b1

/-- `Project.update_allocated_node_name` (`project.py` lines 361-397) over the
allocated-name set (modelled as a list; membership is the set view).  Returns
the Python return value (`none` for a `None` base name) together with the
updated allocated set. -/
def update_allocated_node_name (names : List String) (base_name : Option String) :
    (Except PyErr (Option String)) × List String :=
  match base_name with
  | none => (Except.ok none, names)
  | some bn =>
    let b2 := effective_base names bn
    if is_template b2 then alloc_template_loop names b2 1 999999
    else if names.contains b2 then alloc_suffix_loop names b2 1 999999
    else (Except.ok (some b2), b2 :: names)

/-- `Project.remove_allocated_node_name` (`project.py` lines 351-359). -/
def remove_allocated_node_name (names : List String) (name : String) : List String :=
  if names.contains name then names.erase name else names

/-- A node owned by the project.  `status` and `always_running` reflect the
per-kind state the aggregate reads from the Node collaborator
(`node.status`, `node.is_always_running()`). -/
structure Node where
  node_id : String
  name : String
  compute_id : String
  node_type : String
  status : String
  always_running : Bool
deriving DecidableEq, Repr

/-- One (node, adapter, port) attachment of a link. -/
structure LinkEnd where
  node_id : String
  adapter_number : Nat
  port_number : Nat
deriving DecidableEq, Repr

/-- A link owned by the project; `link_nodes` are its attachments
(the Link collaborator's `nodes` list). -/
structure Link where
  link_id : String
  link_nodes : List LinkEnd
deriving DecidableEq, Repr

/-- A drawing owned by the project. -/
structure Drawing where
  drawing_id : String
deriving DecidableEq, Repr

/-- The in-memory `Project` aggregate (`project.py` class attributes).
Collections are association lists keyed by the entity identifier. -/
structure Project where
  id : String
  name : String
  path : String
  filename : String
  status : String
  loading : Bool
  auto_start : Bool
  auto_close : Bool
  auto_open : Bool
  scene_height : Nat
  scene_width : Nat
  zoom : Nat
  show_layers : Bool
  snap_to_grid : Bool
  show_grid : Bool
  show_interface_labels : Bool
  nodes : List Node
  links : List Link
  drawings : List Drawing
  allocated_node_names : List String
  computes_created : List String
  snapshots : List String
deriving DecidableEq, Repr

/-- On-disk state seen by the aggregate: the canonical topology document
(`<path>/<filename>.gns3`), its `.tmp` sibling used by `dump`, its `.backup`
sibling used by `open`, and the snapshot archive directory listing.
`none` means the file does not exist; `some s` is its byte content. -/
structure FS where
  doc : Option String
  tmp : Option String
  backup : Option String
  snapshot_files : List String
deriving DecidableEq, Repr

/-- Trace of collaborator calls and notifications an operation performs. -/
inductive Effect where
  | compute_post (compute_id : String) (path : String) (with_path : Bool)
  | compute_add (compute_id : String)
  | node_create (node_id : String)
  | node_destroy (node_id : String)
  | link_teardown (link_id : String)
  | filters_update (link_id : String)
  | notify (event : String) (entity_id : String)
  | spawn_start_all
deriving DecidableEq, Repr

/-- Whether the pool runs a node's `start`, `stop` or `suspend`. -/
inductive NodeOp where
  | start
  | stop
  | suspend
deriving DecidableEq, Repr

/-- One unit of work appended to the batch-scheduler pool. -/
structure PoolJob where
  node_id : String
  op : NodeOp
deriving DecidableEq, Repr

/-- Metadata keys loaded from a topology document
(`keys_to_load`, `project.py` lines 759-775); `none` means the key is
absent (`project_data.get(key, None)`), in which case the attribute keeps
its value. -/
structure MetaPatch where
  auto_start : Option Bool
  auto_close : Option Bool
  auto_open : Option Bool
  scene_height : Option Nat
  scene_width : Option Nat
  zoom : Option Nat
  show_layers : Option Bool
  snap_to_grid : Option Bool
  show_grid : Option Bool
  show_interface_labels : Option Bool
deriving DecidableEq, Repr

/-- One node entry of a persisted topology (`topology["nodes"]`). -/
structure NodeEntry where
  compute_id : String
  name : String
  node_id : Option String
  node_type : String
deriving DecidableEq, Repr

/-- One attachment entry of a persisted link (`link_data["nodes"]`). -/
structure LinkNodeEntry where
  node_id : String
  adapter_number : Nat
  port_number : Nat
deriving DecidableEq, Repr

/-- One link entry of a persisted topology (`topology["links"]`). -/
structure LinkEntry where
  link_id : Option String
  has_filters : Bool
  link_nodes : List LinkNodeEntry
deriving DecidableEq, Repr

/-- One drawing entry of a persisted topology (`topology["drawings"]`). -/
structure DrawingEntry where
  drawing_id : Option String
deriving DecidableEq, Repr

/-- The `topology` section of a parsed document. -/
structure TopologyData where
  computes : List String
  nodes : List NodeEntry
  links : List LinkEntry
  drawings : List DrawingEntry
deriving DecidableEq, Repr

/-- A parsed topology document as returned by the `load_topology`
collaborator. -/
structure ProjectData where
  meta : MetaPatch
  topology : TopologyData
deriving DecidableEq, Repr

/-- Outcomes of every fallible collaborator or OS call the aggregate makes.
`none` means the call succeeds; `some e` means it raises `e`.  Boolean
fields model best-effort OS file operations (`true` = the operation
succeeds). -/
structure Env where
  load : String → Except PyErr ProjectData
  post_result : String → Option PyErr
  create_result : String → Option PyErr
  destroy_result : String → Option PyErr
  teardown_result : String → Option PyErr
  filters_result : String → Option PyErr
  add_compute_result : String → Option PyErr
  get_compute_result : String → Option PyErr
  get_port_result : String → Nat → Nat → Option PyErr
  always_running_type : String → Bool
  fresh_node_id : String
  fresh_link_id : String
  fresh_drawing_id : String
  write_tmp_ok : Bool
  move_ok : Bool
  backup_copy_ok : Bool
  restore_copy_ok : Bool
  remove_backup_ok : Bool
  job_result : PoolJob → Option PyErr

/-- Interface model of the `project_to_topology` collaborator
(`topology.py`, out of scope per the spec): a serialization of the full
aggregate (metadata + nodes + links + drawings) which the aggregate itself
treats as opaque document bytes. -/
def project_to_topology (p : Project) : String :=
  "name=" ++ p.name ++ ";id=" ++ p.id
    ++ ";nodes=" ++ String.intercalate ("|") (p.nodes.map Node.node_id)
    ++ ";links=" ++ String.intercalate ("|") (p.links.map Link.link_id)
    ++ ";drawings=" ++ String.intercalate ("|") (p.drawings.map Drawing.drawing_id)

/-- `Project.dump` (`project.py` lines 890-902) given the outcomes of the two
OS steps: serialize the aggregate, write the serialization to the `.tmp`
sibling, then atomically rename the `.tmp` file over the canonical document.
An `OSError` in either step surfaces as `HTTPInternalServerError`; a rename
never leaves the canonical document half-written. -/
def dump_doc (write_tmp_ok move_ok : Bool) (p : Project) (fs : FS) :
    (Except PyErr Unit) × FS :=
  let topo := project_to_topology p
  if write_tmp_ok then
    if move_ok then
      (Except.ok (), { fs with doc := some topo, tmp := none })
    else
      (Except.error (PyErr.HTTPInternalServerError ("Could not write topology")),
        { fs with tmp := some topo })
  else
    (Except.error (PyErr.HTTPInternalServerError ("Could not write topology")), fs)

/-- `Project.dump` with its OS outcomes taken from the environment. -/
def dump (env : Env) (p : Project) (fs : FS) : (Except PyErr Unit) × FS :=
  dump_doc env.write_tmp_ok env.move_ok p fs

/-- The `open_required` decorator (`project.py` lines 48-57): the uniform
precondition guard raising `HTTPForbidden` when the project status is
`closed`. -/
def not_opened_err : PyErr := PyErr.HTTPForbidden ("The project is not opened")

/-- Guard applied by the `open_required` decorator: `some e` means the guarded
operation raises `e` without running. -/
def open_required (p : Project) : Option PyErr :=
  if p.status = "closed" then some not_opened_err else none

/-- Lookup of a node in the collection. -/
def find_node (p : Project) (node_id : String) : Option Node :=
  p.nodes.find? (fun n => n.node_id == node_id)

/-- Lookup of a link in the collection. -/
def find_link (p : Project) (link_id : String) : Option Link :=
  p.links.find? (fun l => l.link_id == link_id)

/-- Lookup of a drawing in the collection. -/
def find_drawing (p : Project) (drawing_id : String) : Option Drawing :=
  p.drawings.find? (fun d => d.drawing_id == drawing_id)

/-- `Project.get_node` (`project.py` lines 495-503). -/
def get_node (p : Project) (node_id : String) : Except PyErr Node :=
  match open_required p with
  | some e => Except.error e
  | none =>
    match find_node p node_id with
    | some n => Except.ok n
    | none => Except.error (PyErr.HTTPNotFound ("Node ID " ++ node_id ++ " doesn't exist"))

/-- `Project.get_link` (`project.py` lines 584-592). -/
def get_link (p : Project) (link_id : String) : Except PyErr Link :=
  match open_required p with
  | some e => Except.error e
  | none =>
    match find_link p link_id with
    | some l => Except.ok l
    | none => Except.error (PyErr.HTTPNotFound ("Link ID " ++ link_id ++ " doesn't exist"))

/-- `Project.get_drawing` (`project.py` lines 537-545). -/
def get_drawing (p : Project) (drawing_id : String) : Except PyErr Drawing :=
  match open_required p with
  | some e => Except.error e
  | none =>
    match find_drawing p drawing_id with
    | some d => Except.ok d
    | none => Except.error (PyErr.HTTPNotFound ("Drawing ID " ++ drawing_id ++ " doesn't exist"))

/-- Continuation of `add_node` after the provisioning step (`project.py`
lines 465-470): `node.create()`, insert into the collection, emit
`node.created`, and dump when requested.  A `create` failure propagates with
the node not inserted. -/
def add_node_create (env : Env) (p : Project) (fs : FS) (node : Node)
    (dump_topology : Bool) (effs : List Effect) :
    (Except PyErr Node) × Project × FS × List Effect :=
  let effs := effs ++ [Effect.node_create node.node_id]
  match env.create_result node.node_id with
  | some e => (Except.error e, p, fs, effs)
  | none =>
    let p1 := { p with nodes := p.nodes ++ [node] }
    let effs := effs ++ [Effect.notify ("node.created") node.node_id]
    if dump_topology then
      match dump env p1 fs with
      | (Except.ok _, fs1) => (Except.ok node, p1, fs1, effs)
      | (Except.error e, fs1) => (Except.error e, p1, fs1, effs)
    else (Except.ok node, p1, fs, effs)

/-- `Project.add_node` (`project.py` lines 429-470).  Returns the existing
node untouched when `node_id` is already in the collection; otherwise runs
inside the node-creation lock (operations are serialized, so the lock is the
identity here): provision the compute on first use (sending the project path
only to the distinguished `local` compute), create the node, insert, notify,
dump.  The IOU application-id allocation concerns Node-collaborator fields
not modelled here. -/
def add_node (env : Env) (p : Project) (fs : FS)
    (compute_id name node_id node_type : String) (dump_topology : Bool) :
    (Except PyErr Node) × Project × FS × List Effect :=
  match open_required p with
  | some e => (Except.error e, p, fs, [])
  | none =>
    match find_node p node_id with
    | some n => (Except.ok n, p, fs, [])
    | none =>
      let node : Node :=
        { node_id := node_id, name := name, compute_id := compute_id,
          node_type := node_type, status := ("stopped"),
          always_running := env.always_running_type node_type }
      if p.computes_created.contains compute_id then
        add_node_create env p fs node dump_topology []
      else
        let effs := [Effect.compute_post compute_id ("/projects") (compute_id == "local")]
        match env.post_result compute_id with
        | some e => (Except.error e, p, fs, effs)
        | none =>
          let p1 := { p with computes_created := p.computes_created ++ [compute_id] }
          add_node_create env p1 fs node dump_topology effs

/-- `Project.add_link` (`project.py` lines 555-569): return the existing link
when the id is already present, otherwise insert a fresh empty link (id
generated when not supplied) and dump when requested. -/
def add_link (env : Env) (p : Project) (fs : FS) (link_id : Option String)
    (dump_topology : Bool) :
    (Except PyErr Link) × Project × FS × List Effect :=
  match open_required p with
  | some e => (Except.error e, p, fs, [])
  | none =>
    match link_id.bind (find_link p) with
    | some l => (Except.ok l, p, fs, [])
    | none =>
      let link : Link := { link_id := link_id.getD env.fresh_link_id, link_nodes := [] }
      let p1 := { p with links := p.links ++ [link] }
      if dump_topology then
        match dump env p1 fs with
        | (Except.ok _, fs1) => (Except.ok link, p1, fs1, [])
        | (Except.error e, fs1) => (Except.error e, p1, fs1, [])
      else (Except.ok link, p1, fs, [])

/-- Tail of `Project.delete_link` after the teardown step (`project.py` lines
581-582): dump the topology (an I/O failure propagates) and emit the
`link.deleted` notification. -/
def delete_link_finish (env : Env) (p1 : Project) (fs : FS) (lid : String) :
    (Except PyErr Unit) × Project × FS × List Effect :=
  match dump env p1 fs with
  | (Except.error e, fs1) => (Except.error e, p1, fs1, [Effect.link_teardown lid])
  | (Except.ok _, fs1) =>
    (Except.ok (), p1, fs1,
      [Effect.link_teardown lid] ++ [Effect.notify ("link.deleted") lid])

/-- `Project.delete_link` (`project.py` lines 571-582): remove the link from
the collection first, then ask the link to tear down remotely; a teardown
failure propagates unless `force_delete` is set, in which case it is
swallowed and the operation completes with dump and notification. -/
def delete_link (env : Env) (p : Project) (fs : FS) (link_id : String)
    (force_delete : Bool) :
    (Except PyErr Unit) × Project × FS × List Effect :=
  match open_required p with
  | some e => (Except.error e, p, fs, [])
  | none =>
    match find_link p link_id with
    | none =>
      (Except.error (PyErr.HTTPNotFound ("Link ID " ++ link_id ++ " doesn't exist")), p, fs, [])
    | some link =>
      let p1 := { p with links := p.links.filter (fun l => !(l.link_id == link.link_id)) }
      match env.teardown_result link.link_id with
      | some e =>
        if force_delete then delete_link_finish env p1 fs link.link_id
        else (Except.error e, p1, fs, [Effect.link_teardown link.link_id])
      | none => delete_link_finish env p1 fs link.link_id

/-- `Project.add_drawing` (`project.py` lines 519-535): insert a fresh drawing
when the id is absent (emit `drawing.created`, dump when requested),
otherwise return the existing drawing. -/
def add_drawing (env : Env) (p : Project) (fs : FS) (drawing_id : Option String)
    (dump_topology : Bool) :
    (Except PyErr Drawing) × Project × FS × List Effect :=
  match open_required p with
  | some e => (Except.error e, p, fs, [])
  | none =>
    match drawing_id.bind (find_drawing p) with
    | some d => (Except.ok d, p, fs, [])
    | none =>
      let drawing : Drawing := { drawing_id := drawing_id.getD env.fresh_drawing_id }
      let p1 := { p with drawings := p.drawings ++ [drawing] }
      let effs := [Effect.notify ("drawing.created") drawing.drawing_id]
      if dump_topology then
        match dump env p1 fs with
        | (Except.ok _, fs1) => (Except.ok drawing, p1, fs1, effs)
        | (Except.error e, fs1) => (Except.error e, p1, fs1, effs)
      else (Except.ok drawing, p1, fs, effs)

/-- `Project.delete_drawing` (`project.py` lines 547-553). -/
def delete_drawing (env : Env) (p : Project) (fs : FS) (drawing_id : String) :
    (Except PyErr Unit) × Project × FS × List Effect :=
  match open_required p with
  | some e => (Except.error e, p, fs, [])
  | none =>
    match find_drawing p drawing_id with
    | none =>
      (Except.error (PyErr.HTTPNotFound ("Drawing ID " ++ drawing_id ++ " doesn't exist")), p, fs, [])
    | some drawing =>
      let p1 := { p with drawings := p.drawings.filter (fun d => !(d.drawing_id == drawing.drawing_id)) }
      match dump env p1 fs with
      | (Except.error e, fs1) => (Except.error e, p1, fs1, [])
      | (Except.ok _, fs1) =>
        (Except.ok (), p1, fs1, [Effect.notify ("drawing.deleted") drawing.drawing_id])

/-- `Project.__delete_node_links` (`project.py` lines 472-482): delete, with
`force_delete`, every link attached to the node, iterating over a snapshot of
the link collection. -/
def delete_node_links (env : Env) (node_id : String) :
    List Link → Project → FS → List Effect →
    (Except PyErr Unit) × Project × FS × List Effect
  | [], p, fs, effs => (Except.ok (), p, fs, effs)
  | l :: rest, p, fs, effs =>
    if l.link_nodes.any (fun a => a.node_id == node_id) then
      match delete_link env p fs l.link_id true with
      | (Except.ok _, p1, fs1, effs1) => delete_node_links env node_id rest p1 fs1 (effs ++ effs1)
      | (Except.error e, p1, fs1, effs1) => (Except.error e, p1, fs1, effs ++ effs1)
    else delete_node_links env node_id rest p fs effs

/-- `Project.delete_node` (`project.py` lines 484-493): find the node, delete
every attached link (forced), release its allocated name, remove it from the
collection, destroy it, dump, notify. -/
def delete_node (env : Env) (p : Project) (fs : FS) (node_id : String) :
    (Except PyErr Unit) × Project × FS × List Effect :=
  match open_required p with
  | some e => (Except.error e, p, fs, [])
  | none =>
    match find_node p node_id with
    | none =>
      (Except.error (PyErr.HTTPNotFound ("Node ID " ++ node_id ++ " doesn't exist")), p, fs, [])
    | some node =>
      match delete_node_links env node.node_id p.links p fs [] with
      | (Except.error e, p1, fs1, effs) => (Except.error e, p1, fs1, effs)
      | (Except.ok _, p1, fs1, effs) =>
        let p2 := { p1 with
          allocated_node_names := remove_allocated_node_name p1.allocated_node_names node.name,
          nodes := p1.nodes.filter (fun n => !(n.node_id == node.node_id)) }
        let effs := effs ++ [Effect.node_destroy node.node_id]
        match env.destroy_result node.node_id with
        | some e => (Except.error e, p2, fs1, effs)
        | none =>
          match dump env p2 fs1 with
          | (Except.error e, fs2) => (Except.error e, p2, fs2, effs)
          | (Except.ok _, fs2) =>
            (Except.ok (), p2, fs2, effs ++ [Effect.notify ("node.deleted") node.node_id])

/-- `Project.is_running` (`project.py` lines 880-888): true when some node is
neither stopped nor of an always-running kind. -/
def is_running (p : Project) : Bool :=
  p.nodes.any (fun n => !(n.status == "stopped") && !n.always_running)

/-- Partition a list into consecutive chunks of at most `k` elements; the
first argument is fuel bounding the number of chunks. -/
def chunks_go (k : Nat) : Nat → List PoolJob → List (List PoolJob)
  | 0, _ => []
  | _, [] => []
  | fuel + 1, l => l.take k :: chunks_go k fuel (l.drop k)

/-- Partition a job list into waves of at most `k` jobs. -/
def chunks (k : Nat) (l : List PoolJob) : List (List PoolJob) :=
  chunks_go k l.length l

/-- Modelled from the spec: the `Pool` collaborator
(`gns3server/utils/asyncio/pool.py`, not under `src/`) — "a worker pool with
a fixed concurrency ceiling (three concurrent workers)"; jobs are enqueued
with `append` and `join` "block[s] the caller until all enqueued operations
complete", with per-job failures not aborting sibling jobs. -/
structure Pool where
  concurrency : Nat
  jobs : List PoolJob
deriving DecidableEq, Repr

/-- Modelled from the spec: `Pool.append` enqueues one job. -/
def Pool.append (pool : Pool) (j : PoolJob) : Pool :=
  { pool with jobs := pool.jobs ++ [j] }

/-- Modelled from the spec: `Pool.join` runs every enqueued job to completion
in waves of at most `concurrency` concurrently in-flight jobs, returning each
job's outcome; a failing job (`some e`) does not remove any sibling job. -/
def Pool.join (env : Env) (pool : Pool) : List (PoolJob × Option PyErr) :=
  ((chunks pool.concurrency pool.jobs).map
    (fun w => w.map (fun j => (j, env.job_result j)))).flatten

/-- `Project.start_all` (`project.py` lines 904-912): build a pool with
concurrency 3, append every node's `start`, join.  Returns the built pool and
the joined outcomes. -/
def start_all (env : Env) (p : Project) : Pool × List (PoolJob × Option PyErr) :=
  let pool := p.nodes.foldl
    (fun pl n => pl.append { node_id := n.node_id, op := NodeOp.start })
    ({ concurrency := 3, jobs := [] } : Pool)
  (pool, pool.join env)

/-- `Project.stop_all` (`project.py` lines 914-922). -/
def stop_all (env : Env) (p : Project) : Pool × List (PoolJob × Option PyErr) :=
  let pool := p.nodes.foldl
    (fun pl n => pl.append { node_id := n.node_id, op := NodeOp.stop })
    ({ concurrency := 3, jobs := [] } : Pool)
  (pool, pool.join env)

/-- `Project.suspend_all` (`project.py` lines 924-932). -/
def suspend_all (env : Env) (p : Project) : Pool × List (PoolJob × Option PyErr) :=
  let pool := p.nodes.foldl
    (fun pl n => pl.append { node_id := n.node_id, op := NodeOp.suspend })
    ({ concurrency := 3, jobs := [] } : Pool)
  (pool, pool.join env)

/-- `Project.reset` (`project.py` lines 137-156): clear the in-memory
collections, the allocated-name set and the provisioned-compute set, and
re-discover snapshot archives (files ending in `.gns3project`) from the
snapshots directory.  The on-disk topology document is untouched. -/
def reset (fs : FS) (p : Project) : Project :=
  { p with
    allocated_node_names := [],
    nodes := [],
    links := [],
    drawings := [],
    snapshots := fs.snapshot_files.filter (fun s => s.endsWith (".gns3project")),
    computes_created := [] }

/-- Metadata replay of `open` (`project.py` lines 758-775): each key present
in the document overwrites the project attribute. -/
def apply_meta (m : MetaPatch) (p : Project) : Project :=
  { p with
    auto_start := m.auto_start.getD p.auto_start,
    auto_close := m.auto_close.getD p.auto_close,
    auto_open := m.auto_open.getD p.auto_open,
    scene_height := m.scene_height.getD p.scene_height,
    scene_width := m.scene_width.getD p.scene_width,
    zoom := m.zoom.getD p.zoom,
    show_layers := m.show_layers.getD p.show_layers,
    snap_to_grid := m.snap_to_grid.getD p.snap_to_grid,
    show_grid := m.show_grid.getD p.show_grid,
    show_interface_labels := m.show_interface_labels.getD p.show_interface_labels }

/-- Compute replay of `open` (`project.py` lines 778-779):
`controller.add_compute(**compute)` for every persisted compute; a failure
aborts the restoration. -/
def replay_computes (env : Env) :
    List String → Project → FS → List Effect →
    (Except PyErr Unit) × Project × FS × List Effect
  | [], p, fs, effs => (Except.ok (), p, fs, effs)
  | c :: rest, p, fs, effs =>
    let effs := effs ++ [Effect.compute_add c]
    match env.add_compute_result c with
    | some e => (Except.error e, p, fs, effs)
    | none => replay_computes env rest p fs effs

/-- Node replay of `open` (`project.py` lines 780-784): resolve the compute,
generate a node id when absent, `add_node` without dumping. -/
def replay_nodes (env : Env) :
    List NodeEntry → Project → FS → List Effect →
    (Except PyErr Unit) × Project × FS × List Effect
  | [], p, fs, effs => (Except.ok (), p, fs, effs)
  | entry :: rest, p, fs, effs =>
    match env.get_compute_result entry.compute_id with
    | some e => (Except.error e, p, fs, effs)
    | none =>
      let nid := entry.node_id.getD env.fresh_node_id
      match add_node env p fs entry.compute_id entry.name nid entry.node_type false with
      | (Except.error e, p1, fs1, effs1) => (Except.error e, p1, fs1, effs ++ effs1)
      | (Except.ok _, p1, fs1, effs1) => replay_nodes env rest p1 fs1 (effs ++ effs1)

/-- Whether some link already occupies the given node port (the
`port.link is not None` check of `project.py` line 795). -/
def port_used (p : Project) (nid : String) (adapter port : Nat) : Bool :=
  p.links.any (fun l => l.link_nodes.any
    (fun a => a.node_id == nid && a.adapter_number == adapter && a.port_number == port))

/-- The Link collaborator's `add_node` called with `dump=False`
(`project.py` line 798): record the attachment on the link. -/
def link_attach (p : Project) (lid : String) (a : LinkNodeEntry) : Project :=
  { p with links := p.links.map (fun l =>
      if l.link_id == lid
      then { l with link_nodes := l.link_nodes ++ [⟨a.node_id, a.adapter_number, a.port_number⟩] }
      else l) }

/-- Attachment replay for one link (`project.py` lines 792-798): look up the
node (a missing node aborts the restoration), look up the port, skip the
attachment when the port is already taken by a link, otherwise attach. -/
def replay_link_nodes (env : Env) (lid : String) :
    List LinkNodeEntry → Project → FS → List Effect →
    (Except PyErr Unit) × Project × FS × List Effect
  | [], p, fs, effs => (Except.ok (), p, fs, effs)
  | a :: rest, p, fs, effs =>
    match get_node p a.node_id with
    | Except.error e => (Except.error e, p, fs, effs)
    | Except.ok _ =>
      match env.get_port_result a.node_id a.adapter_number a.port_number with
      | some e => (Except.error e, p, fs, effs)
      | none =>
        if port_used p a.node_id a.adapter_number a.port_number then
          replay_link_nodes env lid rest p fs effs
        else
          replay_link_nodes env lid rest (link_attach p lid a) fs effs

/-- Link replay of `open` (`project.py` lines 785-801): entries without a
`link_id` are skipped; otherwise `add_link` (which dumps), filter update when
the entry carries filters, attachment replay, and a purge (forced
`delete_link`) of any link that did not end up with exactly two
attachments. -/
def replay_links (env : Env) :
    List LinkEntry → Project → FS → List Effect →
    (Except PyErr Unit) × Project × FS × List Effect
  | [], p, fs, effs => (Except.ok (), p, fs, effs)
  | entry :: rest, p, fs, effs =>
    match entry.link_id with
    | none => replay_links env rest p fs effs
    | some lid =>
      match add_link env p fs (some lid) true with
      | (Except.error e, p1, fs1, effs1) => (Except.error e, p1, fs1, effs ++ effs1)
      | (Except.ok _, p1, fs1, effs1) =>
        let effs := effs ++ effs1
        let step2 := fun (p2 : Project) (fs2 : FS) (effs2 : List Effect) =>
          match replay_link_nodes env lid entry.link_nodes p2 fs2 effs2 with
          | (Except.error e, p3, fs3, effs3) => (Except.error e, p3, fs3, effs3)
          | (Except.ok _, p3, fs3, effs3) =>
            let purge :=
              match find_link p3 lid with
              | some l => decide (l.link_nodes.length ≠ 2)
              | none => false
            if purge then
              match delete_link env p3 fs3 lid true with
              | (Except.error e, p4, fs4, effs4) => (Except.error e, p4, fs4, effs3 ++ effs4)
              | (Except.ok _, p4, fs4, effs4) => replay_links env rest p4 fs4 (effs3 ++ effs4)
            else replay_links env rest p3 fs3 effs3
        if entry.has_filters then
          let effs := effs ++ [Effect.filters_update lid]
          match env.filters_result lid with
          | some e => (Except.error e, p1, fs1, effs)
          | none => step2 p1 fs1 effs
        else step2 p1 fs1 effs

/-- Drawing replay of `open` (`project.py` lines 802-803): `add_drawing`
without dumping. -/
def replay_drawings (env : Env) :
    List DrawingEntry → Project → FS → List Effect →
    (Except PyErr Unit) × Project × FS × List Effect
  | [], p, fs, effs => (Except.ok (), p, fs, effs)
  | entry :: rest, p, fs, effs =>
    match add_drawing env p fs entry.drawing_id false with
    | (Except.error e, p1, fs1, effs1) => (Except.error e, p1, fs1, effs ++ effs1)
    | (Except.ok _, p1, fs1, effs1) => replay_drawings env rest p1 fs1 (effs ++ effs1)

/-- The `try` body of `Project.open` (`project.py` lines 755-805): parse the
document (`load_topology` collaborator), apply document metadata, replay
computes, nodes, links and drawings in document order, and finish with a full
`dump`.  Any failure anywhere in this body is the "triggering failure" the
caller rolls back from. -/
def try_restore (env : Env) (p : Project) (fs : FS) :
    (Except PyErr Unit) × Project × FS × List Effect :=
  match fs.doc with
  | none => (Except.error (PyErr.OtherError ("missing document")), p, fs, [])
  | some content =>
    match env.load content with
    | Except.error e => (Except.error e, p, fs, [])
    | Except.ok pd =>
      let p1 := apply_meta pd.meta p
      match replay_computes env pd.topology.computes p1 fs [] with
      | (Except.error e, p2, fs2, effs) => (Except.error e, p2, fs2, effs)
      | (Except.ok _, p2, fs2, effs) =>
        match replay_nodes env pd.topology.nodes p2 fs2 effs with
        | (Except.error e, p3, fs3, effs2) => (Except.error e, p3, fs3, effs2)
        | (Except.ok _, p3, fs3, effs2) =>
          match replay_links env pd.topology.links p3 fs3 effs2 with
          | (Except.error e, p4, fs4, effs3) => (Except.error e, p4, fs4, effs3)
          | (Except.ok _, p4, fs4, effs3) =>
            match replay_drawings env pd.topology.drawings p4 fs4 effs3 with
            | (Except.error e, p5, fs5, effs4) => (Except.error e, p5, fs5, effs4)
            | (Except.ok _, p5, fs5, effs4) =>
              match dump env p5 fs5 with
              | (Except.error e, fs6) => (Except.error e, p5, fs6, effs4)
              | (Except.ok _, fs6) => (Except.ok (), p5, fs6, effs4)

/-- Error wrapping of `open`'s rollback (`project.py` lines 821-824): a
backend `ComputeError` is re-raised as `HTTPConflict`, anything else is
re-raised unchanged. -/
def wrap_compute_error : PyErr → PyErr
  | PyErr.ComputeError t => PyErr.HTTPConflict t
  | e => e

/-- The `except` branch of `Project.open` (`project.py` lines 806-824), taking
the state left behind by the failed restoration body: ask every provisioned
compute to close the project (best-effort: failures of these posts are
swallowed), restore the `.backup` sibling over the canonical document when it
exists (best-effort, `restore_copy_ok`), revert status to `closed`, drop the
`loading` flag, and re-raise the triggering failure through
`wrap_compute_error`. -/
def open_failure_rollback (env : Env) (project_id : String) (e : PyErr)
    (p2 : Project) (fs2 : FS) (effs : List Effect) :
    (Except PyErr Unit) × Project × FS × List Effect :=
  let effs2 := effs ++ p2.computes_created.map
    (fun c => Effect.compute_post c ("/projects/" ++ project_id ++ "/close") false)
  let fs3 :=
    match fs2.backup with
    | some b => if env.restore_copy_ok then { fs2 with doc := some b } else fs2
    | none => fs2
  let p3 := { p2 with status := ("closed"), loading := false }
  (Except.error (wrap_compute_error e), p3, fs3, effs2)

/-- In-memory state at the start of `open`'s restoration (`project.py` lines
743-745): collections reset, `loading` raised, status marked `opened`. -/
def opening_state (fs : FS) (p : Project) : Project :=
  { reset fs p with loading := true, status := ("opened") }

/-- On-disk state after copying the document over its `.backup` sibling. -/
def with_backup (fs : FS) (b : Option String) : FS :=
  { fs with backup := b }

/-- `Project.open` (`project.py` lines 735-836).  No-op when already opened.
Otherwise: reset, raise the `loading` flag, mark `opened`; return early when
no document exists; copy the document to its `.backup` sibling (best-effort,
`backup_copy_ok`); run the restoration body; on success remove the backup
(best-effort) and spawn the background `start_all` when `auto_start` is set;
on any restoration failure ask every provisioned compute to close the project
(best-effort), restore the backup over the canonical document (best-effort,
`restore_copy_ok`), revert status to `closed`, and re-raise the triggering
failure wrapped by `wrap_compute_error`. -/
def open_project (env : Env) (p : Project) (fs : FS) :
    (Except PyErr Unit) × Project × FS × List Effect :=
  if p.status = "opened" then (Except.ok (), p, fs, [])
  else
    let p1 := opening_state fs p
    match fs.doc with
    | none => (Except.ok (), { p1 with loading := false }, fs, [])
    | some _ =>
      let fs1 := if env.backup_copy_ok then with_backup fs fs.doc else fs
      match try_restore env p1 fs1 with
      | (Except.ok _, p2, fs2, effs) =>
        let fs3 := if env.remove_backup_ok then { fs2 with backup := none } else fs2
        let p3 := { p2 with loading := false }
        let effs2 := if p3.auto_start then effs ++ [Effect.spawn_start_all] else effs
        (Except.ok (), p3, fs3, effs2)
      | (Except.error e, p2, fs2, effs) =>
        open_failure_rollback env p.id e p2 fs2 effs

/-- Environment of the constructor's collaborator and OS calls
(`Project.__init__`, `project.py` lines 69-118). -/
structure InitEnv where
  path_exists : String → Bool
  valid_uuid4 : String → Bool
  path_allowed : String → Bool
  makedirs_ok : Bool
  default_projects_dir : String
  generated_uuid : String
  existing_doc : Option String
  snapshot_files : List String
  write_tmp_ok : Bool
  move_ok : Bool

/-- `Project.__init__` (`project.py` lines 69-118) with the signature's
default values for the scene/auto flags.  In source order: when no
`project_id` is supplied and an explicit `path` already exists, refuse with
`HTTPForbidden`; validate a caller-supplied `project_id` as a version-4 UUID
(`HTTPBadRequest` otherwise) or generate one; default the path under the
projects directory; run the `path` setter (allow-list check, directory
creation, refusal of a double-quote in the path); default the filename;
`reset`; and write an empty document via `dump` when none exists yet. -/
def project_init (env : InitEnv) (name : String) (project_id : Option String)
    (path : Option String) (status : String) (filename : Option String) :
    Except PyErr (Project × FS) :=
  let early : Option PyErr :=
    match project_id, path with
    | none, some pth =>
      if env.path_exists pth
      then some (PyErr.HTTPForbidden ("The path " ++ pth ++ " already exist."))
      else none
    | _, _ => none
  match early with
  | some e => Except.error e
  | none =>
    let pid : Except PyErr String :=
      match project_id with
      | none => Except.ok env.generated_uuid
      | some s =>
        if env.valid_uuid4 s then Except.ok s
        else Except.error (PyErr.HTTPBadRequest (s ++ " is not a valid UUID"))
    match pid with
    | Except.error e => Except.error e
    | Except.ok pid =>
      let pth := path.getD (env.default_projects_dir ++ "/" ++ pid)
      if !(env.path_allowed pth) then
        Except.error (PyErr.HTTPForbidden ("Path not allowed"))
      else if !env.makedirs_ok then
        Except.error (PyErr.HTTPInternalServerError ("Could not create project directory"))
      else if pth.toList.contains '\"' then
        Except.error (PyErr.HTTPForbidden
          ("You are not allowed to use \" in the project directory path. Not supported by Dynamips."))
      else
        let fname := filename.getD (name ++ ".gns3")
        let fs0 : FS :=
          { doc := env.existing_doc, tmp := none, backup := none,
            snapshot_files := env.snapshot_files }
        let p0 : Project :=
          { id := pid, name := name, path := pth, filename := fname,
            status := status, loading := false,
            auto_start := false, auto_close := true, auto_open := false,
            scene_height := 1000, scene_width := 2000, zoom := 100,
            show_layers := false, snap_to_grid := false, show_grid := false,
            show_interface_labels := false,
            nodes := [], links := [], drawings := [],
            allocated_node_names := [], computes_created := [], snapshots := [] }
        let p1 := reset fs0 p0
        match env.existing_doc with
        | some _ => Except.ok (p1, fs0)
        | none =>
          match dump_doc env.write_tmp_ok env.move_ok p1 fs0 with
          | (Except.error e, _) => Except.error e
          | (Except.ok _, fs1) => Except.ok (p1, fs1)

/-- Environment in which every collaborator call succeeds, except that
parsing the topology document fails (a corrupted document). -/
def env0 : Env :=
  { load := fun _ => Except.error (PyErr.OtherError ("corrupted")),
    post_result := fun _ => none,
    create_result := fun _ => none,
    destroy_result := fun _ => none,
    teardown_result := fun _ => none,
    filters_result := fun _ => none,
    add_compute_result := fun _ => none,
    get_compute_result := fun _ => none,
    get_port_result := fun _ _ _ => none,
    always_running_type := fun _ => false,
    fresh_node_id := "fresh-node",
    fresh_link_id := "fresh-link",
    fresh_drawing_id := "fresh-drawing",
    write_tmp_ok := true,
    move_ok := true,
    backup_copy_ok := true,
    restore_copy_ok := true,
    remove_backup_ok := true,
    job_result := fun _ => none }

/-- A stopped sample node. -/
def node_r1 : Node :=
  { node_id := "n1", name := "R1", compute_id := "local", node_type := "vpcs",
    status := ("stopped"), always_running := false }

/-- A started sample node. -/
def node_r2 : Node :=
  { node_id := "n2", name := "R2", compute_id := "local", node_type := "vpcs",
    status := ("started"), always_running := false }

/-- A sample link attached to both sample nodes. -/
def link0 : Link :=
  { link_id := "l1", link_nodes := [⟨"n1", 0, 0⟩, ⟨"n2", 0, 0⟩] }

/-- A small opened sample project. -/
def proj0 : Project :=
  { id := "p1", name := "lab1", path := "/projects/p1", filename := "lab1.gns3",
    status := ("opened"), loading := false,
    auto_start := false, auto_close := true, auto_open := false,
    scene_height := 1000, scene_width := 2000, zoom := 100,
    show_layers := false, snap_to_grid := false, show_grid := false,
    show_interface_labels := false,
    nodes := [node_r1, node_r2], links := [link0], drawings := [⟨"d1"⟩],
    allocated_node_names := ["R1", "R2"], computes_created := ["local"],
    snapshots := [] }

/-- A sample on-disk state holding a document. -/
def fs0 : FS :=
  { doc := some ("olddoc"), tmp := none, backup := none, snapshot_files := [] }

/-- Every name the template search space of base `R\x7b0\x7d` can produce. -/
def big_alloc_base : List String :=
  (List.range 999999).map (fun k => "R" ++ toString (k + 1))

/-- Allocated set that exhausts the template search for base name `R1`. -/
def wit_exhaust_names : List String := "R1" :: big_alloc_base

/-- Allocated set that exhausts the suffix search for base name `R`. -/
def wit_suffix_names : List String := "R" :: big_alloc_base

/-- Environment in which every remote link teardown fails. -/
def env_teardown_fail : Env :=
  { env0 with teardown_result := fun _ => some (PyErr.OtherError ("boom")) }

/-- A constructor environment: every check passes, the target directory and
a topology document already exist. -/
def init_env0 : InitEnv :=
  { path_exists := fun _ => true,
    valid_uuid4 := fun _ => true,
    path_allowed := fun _ => true,
    makedirs_ok := true,
    default_projects_dir := "/projects",
    generated_uuid := "gen-uuid",
    existing_doc := some ("prior doc"),
    snapshot_files := [],
    write_tmp_ok := true,
    move_ok := true }

/-- Environment in which parsing the topology document fails with a backend
`ComputeError`. -/
def env_load_compute_fail : Env :=
  { env0 with load := fun _ => Except.error (PyErr.ComputeError ("backend down")) }

/-- C9: `update_allocated_node_name` called with a `None` base name returns
`None` and leaves the allocated-name set unchanged — no allocation, no
normalization, and no conflict is raised for this input. -/
theorem update_allocated_node_name_none (names : List String) :
    update_allocated_node_name names none = (Except.ok none, names) := rfl

/-- C8: `is_running()` returns true iff some node in the collection has a
status other than `stopped` and is not an always-running kind; in
particular a project whose nodes are all stopped or all always-running
kinds is not running. -/
theorem is_running_spec (p : Project) :
    (is_running p = true ↔
      ∃ n ∈ p.nodes, n.status ≠ "stopped" ∧ n.always_running = false) ∧
    ((∀ n ∈ p.nodes, n.status = "stopped" ∨ n.always_running = true) →
      is_running p = false) := by
  constructor
  · simp [is_running, List.any_eq_true]
  · intro h
    cases hr : is_running p with
    | false => rfl
    | true =>
      exfalso
      simp [is_running, List.any_eq_true] at hr
      obtain ⟨n, hn, hs, ha⟩ := hr
      rcases h n hn with h1 | h1
      · exact hs h1
      · rw [h1] at ha; exact absurd ha (by decide)

/-- C8 witness: a concrete project with one started node is running; one with
only stopped nodes is not. -/
theorem is_running_spec_witness :
    is_running proj0 = true ∧ is_running { proj0 with nodes := [node_r1] } = false := by
  constructor
  · exact (is_running_spec proj0).1.mpr ⟨node_r2, by decide, by decide, by decide⟩
  · exact (is_running_spec { proj0 with nodes := [node_r1] }).2 (by decide)

/-- C3: `add_node` with a `node_id` already present in the collection is
idempotent — it returns the existing node unchanged, performs no backend
provisioning call, inserts nothing and emits no notification; project,
on-disk state and effect trace are exactly as before the call. -/
theorem add_node_idempotent (env : Env) (p : Project) (fs : FS)
    (compute_id name node_id node_type : String) (dump_topology : Bool) (n : Node)
    (hopen : p.status ≠ "closed") (hfind : find_node p node_id = some n) :
    add_node env p fs compute_id name node_id node_type dump_topology =
      (Except.ok n, p, fs, []) := by
  unfold add_node open_required
  simp [hopen, hfind]

/-- C3 witness: re-adding node `n1` of the sample project changes nothing. -/
theorem add_node_idempotent_witness :
    add_node env0 proj0 fs0 "local" "R1" "n1" "vpcs" true =
      (Except.ok node_r1, proj0, fs0, []) :=
  add_node_idempotent env0 proj0 fs0 "local" "R1" "n1" "vpcs" true node_r1
    (by decide) (by decide)

/-- C4: with status `closed`, every collection-mutating operation and every
getter fails fast with the "not opened" `HTTPForbidden` signal of the
`open_required` guard and mutates nothing. -/
theorem closed_guard (env : Env) (p : Project) (fs : FS)
    (compute_id name node_id node_type link_id drawing_id : String)
    (li di : Option String) (dt force : Bool)
    (h : p.status = "closed") :
    open_required p = some not_opened_err ∧
    add_node env p fs compute_id name node_id node_type dt =
      (Except.error not_opened_err, p, fs, []) ∧
    delete_node env p fs node_id = (Except.error not_opened_err, p, fs, []) ∧
    add_link env p fs li dt = (Except.error not_opened_err, p, fs, []) ∧
    delete_link env p fs link_id force = (Except.error not_opened_err, p, fs, []) ∧
    add_drawing env p fs di dt = (Except.error not_opened_err, p, fs, []) ∧
    delete_drawing env p fs drawing_id = (Except.error not_opened_err, p, fs, []) ∧
    get_node p node_id = Except.error not_opened_err ∧
    get_link p link_id = Except.error not_opened_err ∧
    get_drawing p drawing_id = Except.error not_opened_err := by
  unfold add_node delete_node add_link delete_link add_drawing delete_drawing
    get_node get_link get_drawing open_required
  simp [h]

/-- C4 witness: all ten guard conclusions at a concrete closed project. -/
theorem closed_guard_witness :
    open_required { proj0 with status := ("closed") } = some not_opened_err ∧
    add_node env0 { proj0 with status := ("closed") } fs0 "local" "R9" "n9" "vpcs" true =
      (Except.error not_opened_err, { proj0 with status := ("closed") }, fs0, []) := by
  have h := closed_guard env0 { proj0 with status := ("closed") } fs0
    "local" "R9" "n9" "vpcs" "l1" "d1" none none true false (by decide)
  exact ⟨h.1, h.2.1⟩

/-- C5: `dump()` writes the serialized aggregate to a temporary file and
atomically renames it over the canonical document: on success the canonical
document holds exactly the full serialization (and the temporary file is
gone); on any path the canonical document is either untouched or the full
new serialization, never half-written; and any I/O failure surfaces as the
internal-error signal with the canonical document untouched. -/
theorem dump_spec (env : Env) (p : Project) (fs : FS) :
    ((dump env p fs).1 = Except.ok () →
      (dump env p fs).2.doc = some (project_to_topology p) ∧
      (dump env p fs).2.tmp = none) ∧
    ((dump env p fs).2.doc = fs.doc ∨
      (dump env p fs).2.doc = some (project_to_topology p)) ∧
    ((env.write_tmp_ok = false ∨ env.move_ok = false) →
      (dump env p fs).1 =
        Except.error (PyErr.HTTPInternalServerError ("Could not write topology")) ∧
      (dump env p fs).2.doc = fs.doc) := by
  unfold dump dump_doc
  cases hw : env.write_tmp_ok <;> cases hm : env.move_ok <;> simp

/-- C5 witness: a successful dump of the sample project installs the full
serialization; a failed rename surfaces the internal error. -/
theorem dump_spec_witness :
    (dump env0 proj0 fs0).2.doc = some (project_to_topology proj0) ∧
    (dump { env0 with move_ok := false } proj0 fs0).1 =
      Except.error (PyErr.HTTPInternalServerError ("Could not write topology")) := by
  refine ⟨((dump_spec env0 proj0 fs0).1 rfl).1,
    ((dump_spec { env0 with move_ok := false } proj0 fs0).2.2 (Or.inr rfl)).1⟩

/-- C7: `delete_link` removes the link from the in-memory collection before
the remote teardown.  When the teardown fails and `force_delete` is false,
the error propagates, the in-memory removal is not undone, and neither
persist nor notification happens; when `force_delete` is true the failure is
swallowed and deletion completes with persist and notification. -/
theorem delete_link_spec (env : Env) (p : Project) (fs : FS) (link_id : String)
    (link : Link) (e : PyErr)
    (hopen : p.status ≠ "closed") (hfind : find_link p link_id = some link)
    (hfail : env.teardown_result link.link_id = some e) :
    (delete_link env p fs link_id false =
      (Except.error e,
        { p with links := p.links.filter (fun l => !(l.link_id == link.link_id)) },
        fs, [Effect.link_teardown link.link_id])) ∧
    (env.write_tmp_ok = true → env.move_ok = true →
      delete_link env p fs link_id true =
        (Except.ok (),
          { p with links := p.links.filter (fun l => !(l.link_id == link.link_id)) },
          { fs with
            doc := some (project_to_topology
              { p with links := p.links.filter (fun l => !(l.link_id == link.link_id)) }),
            tmp := none },
          [Effect.link_teardown link.link_id,
           Effect.notify ("link.deleted") link.link_id])) := by
  constructor
  · unfold delete_link open_required
    simp [hopen, hfind, hfail]
  · intro hw hm
    unfold delete_link delete_link_finish open_required dump dump_doc
    simp [hopen, hfind, hfail, hw, hm]

/-- C7 witness: both teardown-failure branches at the sample project. -/
theorem delete_link_spec_witness :
    (delete_link env_teardown_fail proj0 fs0 "l1" false =
      (Except.error (PyErr.OtherError ("boom")),
        { proj0 with links := proj0.links.filter (fun l => !(l.link_id == link0.link_id)) },
        fs0, [Effect.link_teardown link0.link_id])) ∧
    (delete_link env_teardown_fail proj0 fs0 "l1" true =
      (Except.ok (),
        { proj0 with links := proj0.links.filter (fun l => !(l.link_id == link0.link_id)) },
        { fs0 with
          doc := some (project_to_topology
            { proj0 with links := proj0.links.filter (fun l => !(l.link_id == link0.link_id)) }),
          tmp := none },
        [Effect.link_teardown link0.link_id,
         Effect.notify ("link.deleted") link0.link_id])) := by
  have h := delete_link_spec env_teardown_fail proj0 fs0 "l1" link0
    (PyErr.OtherError ("boom")) (by decide) (by decide) rfl
  exact ⟨h.1, h.2 rfl rfl⟩

lemma pool_foldl_jobs (f : Node → PoolJob) :
    ∀ (l : List Node) (pl : Pool),
      (l.foldl (fun a n => a.append (f n)) pl).jobs = pl.jobs ++ l.map f := by
  intro l
  induction l with
  | nil => intro pl; simp
  | cons n rest ih =>
    intro pl
    rw [List.foldl_cons, ih]
    simp [Pool.append]

lemma pool_foldl_conc (f : Node → PoolJob) :
    ∀ (l : List Node) (pl : Pool),
      (l.foldl (fun a n => a.append (f n)) pl).concurrency = pl.concurrency := by
  intro l
  induction l with
  | nil => intro pl; rfl
  | cons n rest ih => intro pl; rw [List.foldl_cons, ih]; rfl

lemma chunks_go_flatten (k : Nat) (hk : 1 ≤ k) :
    ∀ (fuel : Nat) (l : List PoolJob), l.length ≤ fuel →
      (chunks_go k fuel l).flatten = l := by
  intro fuel
  induction fuel with
  | zero =>
    intro l hl
    have : l = [] := List.eq_nil_of_length_eq_zero (Nat.le_zero.mp hl)
    subst this; rfl
  | succ fuel ih =>
    intro l hl
    cases l with
    | nil => rfl
    | cons c cs =>
      have hd : ((c :: cs).drop k).length ≤ fuel := by
        simp only [List.length_drop, List.length_cons] at *
        omega
      simp only [chunks_go, List.flatten_cons, ih _ hd, List.take_append_drop]

lemma chunks_go_le (k : Nat) :
    ∀ (fuel : Nat) (l : List PoolJob) (w : List PoolJob),
      w ∈ chunks_go k fuel l → w.length ≤ k := by
  intro fuel
  induction fuel with
  | zero => intro l w h; simp [chunks_go] at h
  | succ fuel ih =>
    intro l w h
    cases l with
    | nil => simp [chunks_go] at h
    | cons c cs =>
      simp only [chunks_go, List.mem_cons] at h
      rcases h with h | h
      · subst h
        simp only [List.length_take]
        exact Nat.min_le_left _ _
      · exact ih _ _ h

lemma chunks_le (k : Nat) (l : List PoolJob) :
    ∀ w ∈ chunks k l, w.length ≤ k :=
  fun w hw => chunks_go_le k l.length l w hw

lemma chunks_flatten (k : Nat) (hk : 1 ≤ k) (l : List PoolJob) :
    (chunks k l).flatten = l :=
  chunks_go_flatten k hk l.length l (Nat.le_refl _)

lemma flatten_pairs (g : PoolJob → Option PyErr) :
    ∀ (X : List (List PoolJob)),
      ((X.map (fun w => w.map (fun j => (j, g j)))).flatten).map Prod.fst = X.flatten := by
  intro X
  induction X with
  | nil => rfl
  | cons w rest ih =>
    simp [List.map_map, ih]
    exact List.map_id w

lemma pool_props (env : Env) (p : Project) (f : Node → PoolJob) :
    (p.nodes.foldl (fun a n => a.append (f n)) ({ concurrency := 3, jobs := [] } : Pool)).concurrency = 3 ∧
    (p.nodes.foldl (fun a n => a.append (f n)) ({ concurrency := 3, jobs := [] } : Pool)).jobs = p.nodes.map f ∧
    (∀ w ∈ chunks 3 (p.nodes.map f), w.length ≤ 3) ∧
    ((p.nodes.foldl (fun a n => a.append (f n)) ({ concurrency := 3, jobs := [] } : Pool)).join env).map Prod.fst = p.nodes.map f := by
  have hc := pool_foldl_conc f p.nodes ({ concurrency := 3, jobs := [] } : Pool)
  have hj := pool_foldl_jobs f p.nodes ({ concurrency := 3, jobs := [] } : Pool)
  simp only [List.nil_append] at hj
  refine ⟨hc, hj, chunks_le 3 _, ?_⟩
  unfold Pool.join
  rw [hc, hj, flatten_pairs, chunks_flatten 3 (by omega)]

/-- C6: `start_all`, `stop_all` and `suspend_all` each build a pool with the
fixed concurrency ceiling three, enqueue the corresponding per-node operation
exactly once for every node of the collection, and block until all enqueued
operations complete: the joined outcomes cover every enqueued job exactly
once (in waves of at most three), and a per-node failure recorded by the
environment does not remove any sibling job from the outcomes. -/
theorem batch_all_spec (env : Env) (p : Project) :
    ((start_all env p).1.concurrency = 3 ∧
      (start_all env p).1.jobs =
        p.nodes.map (fun n => { node_id := n.node_id, op := NodeOp.start }) ∧
      (∀ w ∈ chunks 3 (start_all env p).1.jobs, w.length ≤ 3) ∧
      (start_all env p).2.map Prod.fst = (start_all env p).1.jobs) ∧
    ((stop_all env p).1.concurrency = 3 ∧
      (stop_all env p).1.jobs =
        p.nodes.map (fun n => { node_id := n.node_id, op := NodeOp.stop }) ∧
      (∀ w ∈ chunks 3 (stop_all env p).1.jobs, w.length ≤ 3) ∧
      (stop_all env p).2.map Prod.fst = (stop_all env p).1.jobs) ∧
    ((suspend_all env p).1.concurrency = 3 ∧
      (suspend_all env p).1.jobs =
        p.nodes.map (fun n => { node_id := n.node_id, op := NodeOp.suspend }) ∧
      (∀ w ∈ chunks 3 (suspend_all env p).1.jobs, w.length ≤ 3) ∧
      (suspend_all env p).2.map Prod.fst = (suspend_all env p).1.jobs) := by
  refine ⟨?_, ?_, ?_⟩
  · have h := pool_props env p (fun n => { node_id := n.node_id, op := NodeOp.start })
    simp only [start_all]
    exact ⟨h.1, h.2.1, by rw [h.2.1]; exact h.2.2.1, by rw [h.2.1]; exact h.2.2.2⟩
  · have h := pool_props env p (fun n => { node_id := n.node_id, op := NodeOp.stop })
    simp only [stop_all]
    exact ⟨h.1, h.2.1, by rw [h.2.1]; exact h.2.2.1, by rw [h.2.1]; exact h.2.2.2⟩
  · have h := pool_props env p (fun n => { node_id := n.node_id, op := NodeOp.suspend })
    simp only [suspend_all]
    exact ⟨h.1, h.2.1, by rw [h.2.1]; exact h.2.2.1, by rw [h.2.1]; exact h.2.2.2⟩

/-- C6 witness: at the two-node sample project, `start_all` enqueues exactly
the two start jobs, the single wave has length 2 ≤ 3, and the joined
outcomes cover both jobs. -/
theorem batch_all_spec_witness :
    (start_all env0 proj0).1.jobs =
      [{ node_id := "n1", op := NodeOp.start }, { node_id := "n2", op := NodeOp.start }] ∧
    ([({ node_id := "n1", op := NodeOp.start } : PoolJob),
      { node_id := "n2", op := NodeOp.start }].length ≤ 3) ∧
    (start_all env0 proj0).2.map Prod.fst = (start_all env0 proj0).1.jobs := by
  have h := batch_all_spec env0 proj0
  refine ⟨?_, ?_, h.1.2.2.2⟩
  · rw [h.1.2.1]; rfl
  · exact h.1.2.2.1 _ (by decide)

/-- C10: constructing a `Project` with no caller-supplied `project_id` but an
explicit path that already exists raises the "path already exist"
`HTTPForbidden` signal; with a caller-supplied `project_id` the
existing-path check is never consulted (the result does not depend on it at
all), and construction over an existing directory is accepted. -/
theorem project_init_spec :
    (∀ (env : InitEnv) (name pth st : String) (fn : Option String),
      env.path_exists pth = true →
      project_init env name none (some pth) st fn =
        Except.error (PyErr.HTTPForbidden ("The path " ++ pth ++ " already exist."))) ∧
    (∀ (env : InitEnv) (name pid st : String) (pth fn : Option String) (f : String → Bool),
      project_init { env with path_exists := f } name (some pid) pth st fn =
        project_init env name (some pid) pth st fn) ∧
    (∀ (env : InitEnv) (name pid pth st : String) (fn : Option String) (d : String),
      env.valid_uuid4 pid = true → env.path_allowed pth = true →
      env.makedirs_ok = true → pth.toList.contains '\"' = false →
      env.existing_doc = some d → env.path_exists pth = true →
      ∃ r, project_init env name (some pid) (some pth) st fn = Except.ok r) := by
  refine ⟨?_, ?_, ?_⟩
  · intro env name pth st fn h
    unfold project_init
    simp [h]
  · intro env name pid st pth fn f
    rfl
  · intro env name pid pth st fn d h1 h2 h3 h4 h5 _h6
    rw [Bool.eq_false_iff] at h4
    have h4m : ¬ ('\"' ∈ pth.data) := fun hm => h4 (List.elem_iff.mpr hm)
    unfold project_init
    simp [h1, h2, h3, h4m, h5]

/-- C10 witness: the refusal at an existing path without an id, the
insensitivity to the existing-path check with an id, and acceptance of
restoration over an existing directory. -/
theorem project_init_spec_witness :
    (project_init init_env0 "lab1" none (some "/projects/dup") "opened" none =
      Except.error (PyErr.HTTPForbidden ("The path " ++ "/projects/dup" ++ " already exist."))) ∧
    (project_init { init_env0 with path_exists := fun _ => false } "lab1" (some "p-uuid")
        (some "/projects/dup") "opened" none =
      project_init init_env0 "lab1" (some "p-uuid") (some "/projects/dup") "opened" none) ∧
    (∃ r, project_init init_env0 "lab1" (some "p-uuid") (some "/projects/keep") "opened" none =
      Except.ok r) := by
  have h := project_init_spec
  exact ⟨h.1 init_env0 "lab1" "/projects/dup" "opened" none rfl,
    h.2.1 init_env0 "lab1" "p-uuid" "opened" (some "/projects/dup") none (fun _ => false),
    h.2.2 init_env0 "lab1" "p-uuid" "/projects/keep" "opened" none "prior doc"
      rfl rfl rfl (by decide) rfl rfl⟩

lemma alloc_template_loop_fresh (names : List String) (base : String) :
    ∀ (fuel number : Nat) (r : String) (names2 : List String),
      alloc_template_loop names base number fuel = (Except.ok (some r), names2) →
      names.contains r = false ∧ names2 = r :: names := by
  intro fuel
  induction fuel with
  | zero =>
    intro number r names2 h
    exact absurd h (by simp [alloc_template_loop])
  | succ fuel ih =>
    intro number r names2 h
    unfold alloc_template_loop at h
    split at h
    · simp at h
    · simp at h
    · split at h
      · exact ih _ _ _ h
      · rename_i hcond
        simp only [Prod.mk.injEq, Except.ok.injEq, Option.some.injEq] at h
        obtain ⟨h1, h2⟩ := h
        subst h1
        exact ⟨by simpa using hcond, h2.symm⟩

lemma alloc_suffix_loop_fresh (names : List String) (base : String) :
    ∀ (fuel number : Nat) (r : String) (names2 : List String),
      alloc_suffix_loop names base number fuel = (Except.ok (some r), names2) →
      names.contains r = false ∧ names2 = r :: names := by
  intro fuel
  induction fuel with
  | zero =>
    intro number r names2 h
    exact absurd h (by simp [alloc_suffix_loop])
  | succ fuel ih =>
    intro number r names2 h
    unfold alloc_suffix_loop at h
    split at h
    · exact ih _ _ _ h
    · rename_i hcond
      simp only [Prod.mk.injEq, Except.ok.injEq, Option.some.injEq] at h
      obtain ⟨h1, h2⟩ := h
      subst h1
      exact ⟨by simpa using hcond, h2.symm⟩

lemma alloc_template_loop_exhaust (names : List String) (base : String) :
    ∀ (fuel number : Nat),
      (∀ n, number ≤ n → n < number + fuel →
        ∃ s, py_format n base = Except.ok s ∧ names.contains s = true) →
      alloc_template_loop names base number fuel = (Except.error node_limit_err, names) := by
  intro fuel
  induction fuel with
  | zero => intro number _; rfl
  | succ fuel ih =>
    intro number h
    obtain ⟨s, hs, hc⟩ := h number (Nat.le_refl _) (by omega)
    unfold alloc_template_loop
    rw [hs]
    change (if names.contains s = true then
        alloc_template_loop names base (number + 1) fuel
      else (Except.ok (some s), s :: names)) = (Except.error node_limit_err, names)
    rw [if_pos hc]
    exact ih (number + 1) (fun n h1 h2 => h n (by omega) (by omega))

lemma alloc_suffix_loop_exhaust (names : List String) (base : String) :
    ∀ (fuel number : Nat),
      (∀ n, number ≤ n → n < number + fuel →
        names.contains (base ++ toString n) = true) →
      alloc_suffix_loop names base number fuel = (Except.error node_limit_err, names) := by
  intro fuel
  induction fuel with
  | zero => intro number _; rfl
  | succ fuel ih =>
    intro number h
    have hc := h number (Nat.le_refl _) (by omega)
    unfold alloc_suffix_loop
    rw [if_pos hc]
    exact ih (number + 1) (fun n h1 h2 => h n (by omega) (by omega))

lemma alloc_template_loop_keyerr (names : List String) (base k : String)
    (fuel number : Nat)
    (h : py_format number base = Except.error (FmtErr.key_err k)) :
    alloc_template_loop names base number (fuel + 1) =
      (Except.error (PyErr.HTTPConflict
        ("\x7b" ++ k ++ "\x7d is not a valid replacement string in the node name")), names) := by
  unfold alloc_template_loop
  rw [h]

/-- C2: for every base name, `update_allocated_node_name` never returns a
name already present in the allocated set and the returned name is added to
the set; exhausting the bounded search space 1..999999 (in the template loop
or the suffix loop) without finding a free name raises the "node limit
reached" Conflict; and a template containing a bad replacement field raises
a Conflict naming that field. -/
theorem update_allocated_node_name_spec :
    (∀ (names : List String) (bn r : String) (names2 : List String),
      update_allocated_node_name names (some bn) = (Except.ok (some r), names2) →
      names.contains r = false ∧ names2 = r :: names) ∧
    (∀ (names : List String) (bn : String),
      is_template (effective_base names bn) = true →
      (∀ n, 1 ≤ n → n ≤ 999999 →
        ∃ s, py_format n (effective_base names bn) = Except.ok s ∧
          names.contains s = true) →
      update_allocated_node_name names (some bn) = (Except.error node_limit_err, names)) ∧
    (∀ (names : List String) (bn : String),
      is_template (effective_base names bn) = false →
      names.contains (effective_base names bn) = true →
      (∀ n, 1 ≤ n → n ≤ 999999 →
        names.contains (effective_base names bn ++ toString n) = true) →
      update_allocated_node_name names (some bn) = (Except.error node_limit_err, names)) ∧
    (∀ (names : List String) (bn k : String),
      is_template (effective_base names bn) = true →
      py_format 1 (effective_base names bn) = Except.error (FmtErr.key_err k) →
      update_allocated_node_name names (some bn) =
        (Except.error (PyErr.HTTPConflict
          ("\x7b" ++ k ++ "\x7d is not a valid replacement string in the node name")), names)) := by
  refine ⟨?_, ?_, ?_, ?_⟩
  · intro names bn r names2 h
    simp only [update_allocated_node_name] at h
    cases ht : is_template (effective_base names bn) with
    | true =>
      rw [if_pos ht] at h
      exact alloc_template_loop_fresh names _ 999999 1 r names2 h
    | false =>
      rw [if_neg (by rw [ht]; simp)] at h
      cases hc : names.contains (effective_base names bn) with
      | true =>
        rw [if_pos hc] at h
        exact alloc_suffix_loop_fresh names _ 999999 1 r names2 h
      | false =>
        rw [if_neg (by rw [hc]; simp)] at h
        simp only [Prod.mk.injEq, Except.ok.injEq, Option.some.injEq] at h
        obtain ⟨h1, h2⟩ := h
        subst h1
        exact ⟨hc, h2.symm⟩
  · intro names bn ht hall
    simp only [update_allocated_node_name]
    rw [if_pos ht]
    exact alloc_template_loop_exhaust names _ 999999 1
      (fun n h1 h2 => hall n h1 (by omega))
  · intro names bn ht hc hall
    simp only [update_allocated_node_name]
    rw [if_neg (by rw [ht]; simp), if_pos hc]
    exact alloc_suffix_loop_exhaust names _ 999999 1
      (fun n h1 h2 => hall n h1 (by omega))
  · intro names bn k ht hk
    simp only [update_allocated_node_name]
    rw [if_pos ht]
    have h999 : (999999 : Nat) = 999998 + 1 := by norm_num
    rw [h999]
    exact alloc_template_loop_keyerr names _ k 999998 1 hk

lemma string_cons_append (c : Char) (t : String) :
    String.mk [c] ++ t = String.mk (c :: t.data) := by
  cases t
  rfl

lemma py_format_R_template (n : Nat) :
    py_format n ("R\x7b0\x7d") = Except.ok ("R" ++ toString n) := by
  have h1 : py_format n ("R\x7b0\x7d") =
      Except.ok (String.mk ('R' :: ((toString n).toList ++ []))) := by
    simp [py_format, py_format_go, fmt_key, lbrace, rbrace]
  rw [h1, List.append_nil]
  have h2 : ("R" : String) ++ toString n = String.mk ('R' :: (toString n).data) :=
    string_cons_append 'R' (toString n)
  rw [h2]
  rfl

lemma mem_big_alloc_base (n : Nat) (h1 : 1 ≤ n) (h2 : n ≤ 999999) :
    ("R" ++ toString n) ∈ big_alloc_base := by
  unfold big_alloc_base
  apply List.mem_map.mpr
  refine ⟨n - 1, List.mem_range.mpr (by omega), ?_⟩
  have h3 : n - 1 + 1 = n := by omega
  rw [h3]

/-- C2 witness: a fresh allocation from a taken base name, exhaustion of the
template loop, exhaustion of the suffix loop, and the bad-placeholder
conflict, all at concrete inputs. -/
theorem update_allocated_node_name_spec_witness :
    (["R1"].contains "R2" = false ∧ (["R2", "R1"] : List String) = "R2" :: ["R1"]) ∧
    update_allocated_node_name wit_exhaust_names (some "R1") =
      (Except.error node_limit_err, wit_exhaust_names) ∧
    update_allocated_node_name wit_suffix_names (some "R") =
      (Except.error node_limit_err, wit_suffix_names) ∧
    update_allocated_node_name [] (some "R\x7b0\x7d-\x7bfoo\x7d") =
      (Except.error (PyErr.HTTPConflict
        ("\x7b" ++ "foo" ++ "\x7d is not a valid replacement string in the node name")), []) := by
  have heff1 : effective_base wit_exhaust_names "R1" = "R\x7b0\x7d" := rfl
  have heff2 : effective_base wit_suffix_names "R" = "R" := rfl
  have heff3 : effective_base [] "R\x7b0\x7d-\x7bfoo\x7d" = "R\x7b0\x7d-\x7bfoo\x7d" := rfl
  refine ⟨?_, ?_, ?_, ?_⟩
  · exact update_allocated_node_name_spec.1 ["R1"] "R1" "R2" ["R2", "R1"] (by decide)
  · apply update_allocated_node_name_spec.2.1 wit_exhaust_names "R1" (by rw [heff1]; decide)
    intro n h1 h2
    rw [heff1]
    refine ⟨"R" ++ toString n, py_format_R_template n, ?_⟩
    show List.elem ("R" ++ toString n) wit_exhaust_names = true
    exact List.elem_iff.mpr (List.mem_cons_of_mem _ (mem_big_alloc_base n h1 h2))
  · apply update_allocated_node_name_spec.2.2.1 wit_suffix_names "R"
      (by rw [heff2]; decide) (by decide)
    intro n h1 h2
    rw [heff2]
    show List.elem ("R" ++ toString n) wit_suffix_names = true
    exact List.elem_iff.mpr (List.mem_cons_of_mem _ (mem_big_alloc_base n h1 h2))
  · exact update_allocated_node_name_spec.2.2.2 [] "R\x7b0\x7d-\x7bfoo\x7d" "foo"
      (by rw [heff3]; decide) (by rw [heff3]; decide)

lemma dump_doc_backup (w m : Bool) (p : Project) (fs : FS) :
    ((dump_doc w m p fs).2).backup = fs.backup := by
  unfold dump_doc
  cases w <;> cases m <;> rfl

lemma dump_backup (env : Env) (p : Project) (fs : FS) :
    ((dump env p fs).2).backup = fs.backup :=
  dump_doc_backup env.write_tmp_ok env.move_ok p fs

lemma add_node_create_backup (env : Env) (p : Project) (fs : FS) (node : Node)
    (dt : Bool) (effs : List Effect) :
    ((add_node_create env p fs node dt effs).2.2.1).backup = fs.backup := by
  simp only [add_node_create]
  cases hc : env.create_result node.node_id with
  | some e => rfl
  | none =>
    cases dt with
    | false => rfl
    | true =>
      rcases hd : dump env { p with nodes := p.nodes ++ [node] } fs with ⟨r, fs1⟩
      have hb : fs1.backup = fs.backup := by
        have h2 := dump_backup env { p with nodes := p.nodes ++ [node] } fs
        rw [hd] at h2
        exact h2
      cases r <;> exact hb

lemma add_node_backup (env : Env) (p : Project) (fs : FS)
    (c nm nid nt : String) (dt : Bool) :
    ((add_node env p fs c nm nid nt dt).2.2.1).backup = fs.backup := by
  simp only [add_node]
  cases hg : open_required p with
  | some e => rfl
  | none =>
    cases hf : find_node p nid with
    | some n => rfl
    | none =>
      cases hcc : p.computes_created.contains c with
      | true => exact add_node_create_backup env p fs _ dt _
      | false =>
        cases hp : env.post_result c with
        | some e => rfl
        | none =>
          exact add_node_create_backup env
            { p with computes_created := p.computes_created ++ [c] } fs _ dt _

lemma add_link_backup (env : Env) (p : Project) (fs : FS)
    (li : Option String) (dt : Bool) :
    ((add_link env p fs li dt).2.2.1).backup = fs.backup := by
  simp only [add_link]
  cases hg : open_required p with
  | some e => rfl
  | none =>
    cases hf : li.bind (find_link p) with
    | some l => rfl
    | none =>
      cases dt with
      | false => rfl
      | true =>
        rcases hd : dump env
          { p with links := p.links ++ [{ link_id := li.getD env.fresh_link_id, link_nodes := [] }] }
          fs with ⟨r, fs1⟩
        have hb : fs1.backup = fs.backup := by
          have h2 := dump_backup env
            { p with links := p.links ++ [{ link_id := li.getD env.fresh_link_id, link_nodes := [] }] } fs
          rw [hd] at h2
          exact h2
        cases r <;> exact hb

lemma delete_link_finish_backup (env : Env) (p1 : Project) (fs : FS) (lid : String) :
    ((delete_link_finish env p1 fs lid).2.2.1).backup = fs.backup := by
  simp only [delete_link_finish]
  rcases hd : dump env p1 fs with ⟨r, fs1⟩
  have hb : fs1.backup = fs.backup := by
    have h2 := dump_backup env p1 fs
    rw [hd] at h2
    exact h2
  cases r <;> exact hb

lemma delete_link_backup (env : Env) (p : Project) (fs : FS)
    (lid : String) (force : Bool) :
    ((delete_link env p fs lid force).2.2.1).backup = fs.backup := by
  simp only [delete_link]
  split
  · rfl
  · split
    · rfl
    · split
      · split
        · exact delete_link_finish_backup env _ fs _
        · rfl
      · exact delete_link_finish_backup env _ fs _

lemma add_drawing_backup (env : Env) (p : Project) (fs : FS)
    (di : Option String) (dt : Bool) :
    ((add_drawing env p fs di dt).2.2.1).backup = fs.backup := by
  simp only [add_drawing]
  cases hg : open_required p with
  | some e => rfl
  | none =>
    cases hf : di.bind (find_drawing p) with
    | some d => rfl
    | none =>
      cases dt with
      | false => rfl
      | true =>
        rcases hd : dump env
          { p with drawings := p.drawings ++ [{ drawing_id := di.getD env.fresh_drawing_id }] }
          fs with ⟨r, fs1⟩
        have hb : fs1.backup = fs.backup := by
          have h2 := dump_backup env
            { p with drawings := p.drawings ++ [{ drawing_id := di.getD env.fresh_drawing_id }] } fs
          rw [hd] at h2
          exact h2
        cases r <;> exact hb

lemma replay_computes_backup (env : Env) :
    ∀ (cs : List String) (p : Project) (fs : FS) (effs : List Effect),
      ((replay_computes env cs p fs effs).2.2.1).backup = fs.backup := by
  intro cs
  induction cs with
  | nil => intro p fs effs; rfl
  | cons c rest ih =>
    intro p fs effs
    simp only [replay_computes]
    cases h : env.add_compute_result c with
    | some e => rfl
    | none => exact ih p fs _

lemma replay_nodes_backup (env : Env) :
    ∀ (es : List NodeEntry) (p : Project) (fs : FS) (effs : List Effect),
      ((replay_nodes env es p fs effs).2.2.1).backup = fs.backup := by
  intro es
  induction es with
  | nil => intro p fs effs; rfl
  | cons entry rest ih =>
    intro p fs effs
    simp only [replay_nodes]
    cases h : env.get_compute_result entry.compute_id with
    | some e => rfl
    | none =>
      rcases ha : add_node env p fs entry.compute_id entry.name
        (entry.node_id.getD env.fresh_node_id) entry.node_type false with ⟨r, p1, fs1, effs1⟩
      have hb : fs1.backup = fs.backup := by
        have h2 := add_node_backup env p fs entry.compute_id entry.name
          (entry.node_id.getD env.fresh_node_id) entry.node_type false
        rw [ha] at h2
        exact h2
      cases r with
      | error e => exact hb
      | ok n => exact (ih p1 fs1 (effs ++ effs1)).trans hb

lemma replay_link_nodes_fs (env : Env) (lid : String) :
    ∀ (as : List LinkNodeEntry) (p : Project) (fs : FS) (effs : List Effect),
      (replay_link_nodes env lid as p fs effs).2.2.1 = fs := by
  intro as
  induction as with
  | nil => intro p fs effs; rfl
  | cons a rest ih =>
    intro p fs effs
    simp only [replay_link_nodes]
    cases hg : get_node p a.node_id with
    | error e => rfl
    | ok n =>
      cases hp : env.get_port_result a.node_id a.adapter_number a.port_number with
      | some e => rfl
      | none =>
        cases hu : port_used p a.node_id a.adapter_number a.port_number with
        | true => exact ih p fs effs
        | false => exact ih (link_attach p lid a) fs effs

lemma replay_links_backup (env : Env) :
    ∀ (es : List LinkEntry) (p : Project) (fs : FS) (effs : List Effect),
      ((replay_links env es p fs effs).2.2.1).backup = fs.backup := by
  intro es
  induction es with
  | nil => intro p fs effs; rfl
  | cons entry rest ih =>
    intro p fs effs
    simp only [replay_links]
    split
    · exact ih p fs effs
    · rename_i lid hleq
      split
      · rename_i e p1 fs1 effs1 heq
        have h2 := add_link_backup env p fs (some lid) true
        rw [heq] at h2
        exact h2
      · rename_i a p1 fs1 effs1 heq
        have hb1 : fs1.backup = fs.backup := by
          have h2 := add_link_backup env p fs (some lid) true
          rw [heq] at h2
          exact h2
        split
        · split
          · exact hb1
          · split
            · rename_i e2 p3 fs3 effs3 heq2
              have hf3 : fs3 = fs1 := by
                have h2 := replay_link_nodes_fs env lid entry.link_nodes p1 fs1
                  (effs ++ effs1 ++ [Effect.filters_update lid])
                rw [heq2] at h2
                exact h2
              exact (congrArg FS.backup hf3).trans hb1
            · rename_i a2 p3 fs3 effs3 heq2
              have hf3 : fs3 = fs1 := by
                have h2 := replay_link_nodes_fs env lid entry.link_nodes p1 fs1
                  (effs ++ effs1 ++ [Effect.filters_update lid])
                rw [heq2] at h2
                exact h2
              split
              · split
                · rename_i e3 p4 fs4 effs4 heq3
                  have hb4 : fs4.backup = fs3.backup := by
                    have h2 := delete_link_backup env p3 fs3 lid true
                    rw [heq3] at h2
                    exact h2
                  exact hb4.trans ((congrArg FS.backup hf3).trans hb1)
                · rename_i a3 p4 fs4 effs4 heq3
                  have hb4 : fs4.backup = fs3.backup := by
                    have h2 := delete_link_backup env p3 fs3 lid true
                    rw [heq3] at h2
                    exact h2
                  exact (ih p4 fs4 _).trans (hb4.trans ((congrArg FS.backup hf3).trans hb1))
              · exact (ih p3 fs3 _).trans ((congrArg FS.backup hf3).trans hb1)
        · split
          · rename_i e2 p3 fs3 effs3 heq2
            have hf3 : fs3 = fs1 := by
              have h2 := replay_link_nodes_fs env lid entry.link_nodes p1 fs1 (effs ++ effs1)
              rw [heq2] at h2
              exact h2
            exact (congrArg FS.backup hf3).trans hb1
          · rename_i a2 p3 fs3 effs3 heq2
            have hf3 : fs3 = fs1 := by
              have h2 := replay_link_nodes_fs env lid entry.link_nodes p1 fs1 (effs ++ effs1)
              rw [heq2] at h2
              exact h2
            split
            · split
              · rename_i e3 p4 fs4 effs4 heq3
                have hb4 : fs4.backup = fs3.backup := by
                  have h2 := delete_link_backup env p3 fs3 lid true
                  rw [heq3] at h2
                  exact h2
                exact hb4.trans ((congrArg FS.backup hf3).trans hb1)
              · rename_i a3 p4 fs4 effs4 heq3
                have hb4 : fs4.backup = fs3.backup := by
                  have h2 := delete_link_backup env p3 fs3 lid true
                  rw [heq3] at h2
                  exact h2
                exact (ih p4 fs4 _).trans (hb4.trans ((congrArg FS.backup hf3).trans hb1))
            · exact (ih p3 fs3 _).trans ((congrArg FS.backup hf3).trans hb1)

lemma replay_drawings_backup (env : Env) :
    ∀ (es : List DrawingEntry) (p : Project) (fs : FS) (effs : List Effect),
      ((replay_drawings env es p fs effs).2.2.1).backup = fs.backup := by
  intro es
  induction es with
  | nil => intro p fs effs; rfl
  | cons entry rest ih =>
    intro p fs effs
    simp only [replay_drawings]
    rcases ha : add_drawing env p fs entry.drawing_id false with ⟨r, p1, fs1, effs1⟩
    have hb : fs1.backup = fs.backup := by
      have h2 := add_drawing_backup env p fs entry.drawing_id false
      rw [ha] at h2
      exact h2
    cases r with
    | error e => exact hb
    | ok dr => exact (ih p1 fs1 (effs ++ effs1)).trans hb

lemma try_restore_backup (env : Env) (p : Project) (fs : FS) :
    ((try_restore env p fs).2.2.1).backup = fs.backup := by
  simp only [try_restore]
  split
  · rfl
  · rename_i content hdeq
    split
    · rfl
    · rename_i pd hleq
      split
      · rename_i e p2 fs2 effs heq1
        have h2 := replay_computes_backup env pd.topology.computes (apply_meta pd.meta p) fs []
        rw [heq1] at h2
        exact h2
      · rename_i a p2 fs2 effs heq1
        have h1 : fs2.backup = fs.backup := by
          have h2 := replay_computes_backup env pd.topology.computes (apply_meta pd.meta p) fs []
          rw [heq1] at h2
          exact h2
        split
        · rename_i e pe fse effse heq2
          have h2 := replay_nodes_backup env pd.topology.nodes p2 fs2 effs
          rw [heq2] at h2
          exact h2.trans h1
        · rename_i a2 p3 fs3 effs2 heq2
          have h2 : fs3.backup = fs.backup := by
            have h3 := replay_nodes_backup env pd.topology.nodes p2 fs2 effs
            rw [heq2] at h3
            exact h3.trans h1
          split
          · rename_i e pe fse effse heq3
            have h3 := replay_links_backup env pd.topology.links p3 fs3 effs2
            rw [heq3] at h3
            exact h3.trans h2
          · rename_i a3 p4 fs4 effs3 heq3
            have h3 : fs4.backup = fs.backup := by
              have h4 := replay_links_backup env pd.topology.links p3 fs3 effs2
              rw [heq3] at h4
              exact h4.trans h2
            split
            · rename_i e pe fse effse heq4
              have h4 := replay_drawings_backup env pd.topology.drawings p4 fs4 effs3
              rw [heq4] at h4
              exact h4.trans h3
            · rename_i a4 p5 fs5 effs4 heq4
              have h4 : fs5.backup = fs.backup := by
                have h5 := replay_drawings_backup env pd.topology.drawings p4 fs4 effs3
                rw [heq4] at h5
                exact h5.trans h3
              split
              · rename_i e fs6 heq5
                have h5 := dump_backup env p5 fs5
                rw [heq5] at h5
                exact h5.trans h4
              · rename_i a5 fs6 heq5
                have h5 := dump_backup env p5 fs5
                rw [heq5] at h5
                exact h5.trans h4

lemma open_failure_rollback_spec (env : Env) (pid : String) (e : PyErr)
    (p2 : Project) (fs2 : FS) (effs : List Effect) (d : String)
    (hback : fs2.backup = some d) (hr : env.restore_copy_ok = true) :
    open_failure_rollback env pid e p2 fs2 effs =
      (Except.error (wrap_compute_error e),
        { p2 with status := ("closed"), loading := false },
        { fs2 with doc := some d },
        effs ++ p2.computes_created.map
          (fun c => Effect.compute_post c ("/projects/" ++ pid ++ "/close") false)) := by
  simp only [open_failure_rollback]
  rw [hback]
  simp [hr]

/-- C1: when `open()` fails partway through topology restoration (any failure
of the restore body, e.g. a malformed node entry), and the best-effort backup
copy and backup restore succeed, then afterwards the project status is
`closed`, the on-disk topology document is byte-identical to its pre-open
state (restored from the `.backup` copy), and the triggering failure is
re-raised — wrapped as `HTTPConflict` when it is a backend `ComputeError`. -/
theorem open_rollback (env : Env) (p : Project) (fs : FS) (d : String) (e : PyErr)
    (hst : ¬ p.status = "opened")
    (hdoc : fs.doc = some d)
    (hb : env.backup_copy_ok = true)
    (hr : env.restore_copy_ok = true)
    (ht : (try_restore env (opening_state fs p) (with_backup fs (some d))).1 =
      Except.error e) :
    (open_project env p fs).1 = Except.error (wrap_compute_error e) ∧
    (open_project env p fs).2.1.status = "closed" ∧
    (open_project env p fs).2.2.1.doc = some d ∧
    (∀ t, e = PyErr.ComputeError t →
      (open_project env p fs).1 = Except.error (PyErr.HTTPConflict t)) := by
  rcases htr : try_restore env (opening_state fs p) (with_backup fs (some d))
    with ⟨r, p2, fs2, effs⟩
  have hre : r = Except.error e := by rw [htr] at ht; exact ht
  subst hre
  have hback : fs2.backup = some d := by
    have h2 := try_restore_backup env (opening_state fs p) (with_backup fs (some d))
    rw [htr] at h2
    exact h2
  have hopen : open_project env p fs = open_failure_rollback env p.id e p2 fs2 effs := by
    simp only [open_project]
    rw [if_neg hst, hdoc, if_pos hb, htr]
  rw [hopen, open_failure_rollback_spec env p.id e p2 fs2 effs d hback hr]
  refine ⟨rfl, rfl, rfl, ?_⟩
  intro t het
  subst het
  rfl

/-- C1 witness: opening the closed sample project over a document whose parse
fails with a backend `ComputeError` re-raises it as `HTTPConflict`, reverts
status to `closed`, and leaves the document bytes unchanged. -/
theorem open_rollback_witness :
    (open_project env_load_compute_fail { proj0 with status := ("closed") } fs0).1 =
      Except.error (PyErr.HTTPConflict ("backend down")) ∧
    (open_project env_load_compute_fail { proj0 with status := ("closed") } fs0).2.1.status
      = "closed" ∧
    (open_project env_load_compute_fail { proj0 with status := ("closed") } fs0).2.2.1.doc
      = some ("olddoc") := by
  have h := open_rollback env_load_compute_fail { proj0 with status := ("closed") } fs0
    "olddoc" (PyErr.ComputeError ("backend down")) (by decide) rfl rfl rfl (by decide)
  exact ⟨h.2.2.2 "backend down" rfl, h.2.1, h.2.2.1⟩
